import Mathlib

/-
Shallow embedding of the query-compilation and batched-execution core of the
BD_Classes repository (src/async_pg.py and src/async_sqlite.py).

Python dictionaries preserve insertion order, so a dict of column/value pairs
is modelled as an association list.  A SQL-bindable scalar is modelled by
`Value`; Python `None` is `Value.vnull`.  Statement execution is external
(asyncpg / sqlite3): each operation model takes the driver call as an oracle
function returning `Except String` results, where `Except.error e` models a
raised exception with message `e`.  The `Bool` component of an operation's
result is the state of the handler's connection/pool field after the call
(`true` = handle present, `false` = reset to `None`).
-/

/-- A SQL-bindable scalar; `vnull` is Python `None`. -/
inductive Value where
  | vnull
  | vint (n : Int)
  | vstr (s : String)
deriving DecidableEq, Repr

/-- Embeds Python `sep.join(parts)`. -/
def pyJoin (sep : String) : List String → String
  | [] => ""
  | [s] => s
  | s :: t :: rest => s ++ sep ++ pyJoin sep (t :: rest)

/-- Embeds the generator `value for value in conditions.values() if value is not None`
(src/async_pg.py line 193, src/async_sqlite.py line 222). -/
def nonNullValues (conditions : List (String × Value)) : List Value :=
  (conditions.map Prod.snd).filter (fun v => decide (v ≠ Value.vnull))

/-- Embeds Python `query.rstrip(',')`. -/
def rstripCommas (s : String) : String :=
  String.mk ((s.toList.reverse.dropWhile (fun c => decide (c = ','))).reverse)

/-- Embeds the `table_info` dict accepted by `create_tables`
(src/async_pg.py lines 40-42, src/async_sqlite.py lines 40-42). -/
structure TableInfo where
  name_table : String
  primary_key : Option (String × String × String)
  fields : List (String × String)

/-- Embeds the CREATE TABLE text assembly, written identically in
`PostgresHandler.create_tables` (src/async_pg.py lines 48-53) and
`SqliteHandler.create_tables` (src/async_sqlite.py lines 49-54). -/
def createTablesQuery (table_info : TableInfo) : String :=
  let query := "CREATE TABLE IF NOT EXISTS " ++ table_info.name_table ++ " ("
  let query := match table_info.primary_key with
    | some pk => query ++ pk.1 ++ " " ++ pk.2.1 ++ " " ++ pk.2.2 ++ ","
    | none => query
  let query := table_info.fields.foldl (fun q f => q ++ f.1 ++ " " ++ f.2 ++ ",") query
  rstripCommas query ++ ")"

/-- Embeds the batching loop
`for i in range(0, len(records), batch_size): batch = records[i:i + batch_size]`
(src/async_pg.py lines 80-81 and 127-128, src/async_sqlite.py lines 87-88 and
148-149).  Faithful for `batchSize ≥ 1`; Python raises `ValueError` on step 0. -/
def sliceBatches (batchSize : Nat) : List α → List (List α)
  | [] => []
  | r :: rs => (r :: rs.take (batchSize - 1)) :: sliceBatches batchSize (rs.drop (batchSize - 1))
termination_by l => l.length
decreasing_by
  simp only [List.length_drop, List.length_cons]
  omega

/-- Embeds `columns = list(records[0].keys()) if records else []`
(src/async_pg.py line 122, src/async_sqlite.py line 144). -/
def insertColumns (records : List (List (String × Value))) : List String :=
  match records with
  | [] => []
  | r :: _ => r.map Prod.fst

/-- Embeds `tuple(record[col] for col in columns)` (src/async_pg.py line 129,
src/async_sqlite.py line 150); a missing key (a `KeyError` in the source) is
outside every claim's scope, so the lookup is made total with `vnull`. -/
def recordTuple (columns : List String) (record : List (String × Value)) : List Value :=
  columns.map (fun c => ((record.lookup c).getD Value.vnull))

/-- Embeds the per-chunk `executemany` loop of bulk insert: the first raised
failure propagates out of the loop (src/async_pg.py lines 127-130,
src/async_sqlite.py lines 148-151). -/
def runExecMany (executemany : String → List (List Value) → Except String Unit)
    (query : String) : List (List (List Value)) → Except String Unit
  | [] => .ok ()
  | chunk :: rest =>
    match executemany query chunk with
    | .ok _ => runExecMany executemany query rest
    | .error e => .error e

/-- True when the operation outcome models a raised (uncaught) exception. -/
def isRaised : Except String α → Bool
  | .error _ => true
  | .ok _ => false

/-- Modelled from the spec: the embedded driver (external `sqlite3`) exposes the
capabilities execute / executemany / fetch (spec section 6); its cursor object
provides these fetch methods and no `fetchval`.  Looking up an attribute
outside this list raises `AttributeError`. -/
def sqliteCursorAttrs : List String :=
  ["execute", "executemany", "executescript", "fetchone", "fetchmany", "fetchall",
   "close", "description", "rowcount", "lastrowid"]

/-- Modelled from the spec: attribute lookup on the embedded driver's cursor;
an attribute the interface does not provide raises `AttributeError`. -/
def cursorGetAttr (attr : String) : Except String Unit :=
  if attr ∈ sqliteCursorAttrs then .ok ()
  else .error ("AttributeError: Cursor object has no attribute " ++ attr)

namespace PostgresHandler

/-- Embeds the per-Condition clause generator inside `build_select_query`
(src/async_pg.py lines 186-191): the running parameter index is
`len(condition_values) + i + 1` where `i` enumerates ALL columns of the
condition, null-valued ones included. -/
def condClause (numBound : Nat) (conditions : List (String × Value)) : String :=
  pyJoin " AND " (conditions.enum.map (fun p =>
    if p.2.2 ≠ Value.vnull then p.2.1 ++ " = $" ++ toString (numBound + p.1 + 1)
    else p.2.1 ++ " IS NULL"))

/-- Embeds the loop over `where_conditions_list` accumulating `where_clauses`
and `condition_values` (src/async_pg.py lines 184-193); `condition_values` is
extended only after a condition's clause is built. -/
def compileConds : List (List (String × Value)) → List String × List Value → List String × List Value
  | [], acc => acc
  | conditions :: rest, acc =>
    if conditions = [] then compileConds rest acc
    else compileConds rest (acc.1 ++ [condClause acc.2.length conditions], acc.2 ++ nonNullValues conditions)

/-- Embeds `PostgresHandler.build_select_query` (src/async_pg.py lines 177-201). -/
def build_select_query (table_name : String) (find_data : List String)
    (where_conditions_list : List (List (String × Value))) (batch_size : Int) :
    String × List Value :=
  let query := "SELECT " ++ pyJoin ", " find_data ++ " FROM " ++ table_name
  if where_conditions_list = [] then (query, [])
  else
    let res := compileConds where_conditions_list ([], [])
    if res.1 = [] then (query, res.2)
    else
      let query := query ++ " WHERE " ++ pyJoin " OR " (res.1.map (fun clause => "(" ++ clause ++ ")"))
      let query := if batch_size ≠ 0 then query ++ " LIMIT " ++ toString batch_size else query
      (query, res.2)

/-- Embeds the per-item statement assembly in `PostgresHandler.mass_update`
(src/async_pg.py lines 86-100): WHERE placeholders are indexed first (from 1),
SET placeholders continue after them, and the bound list is the WHERE values
followed by the UPDATE values. -/
def updateQuery (table_name : String) (where_dict update_dict : List (String × Value)) :
    String × List Value :=
  let where_clause := pyJoin " AND "
    (where_dict.enum.map (fun p => p.2.1 ++ " = $" ++ toString (p.1 + 1)))
  let update_clause := pyJoin ", "
    (update_dict.enum.map (fun p => p.2.1 ++ " = $" ++ toString (where_dict.length + p.1 + 1)))
  ("UPDATE " ++ table_name ++ " SET " ++ update_clause ++ " WHERE " ++ where_clause,
   where_dict.map Prod.snd ++ update_dict.map Prod.snd)

/-- Embeds the statement assembly in `PostgresHandler.delete_data`
(src/async_pg.py lines 214-222); the bound list is all condition values,
nulls included. -/
def deleteQuery (table_name : String) (where_conditions : List (String × Value)) :
    String × List Value :=
  let query := "DELETE FROM " ++ table_name
  let query := if where_conditions = [] then query
    else query ++ " WHERE " ++ pyJoin " AND "
      (where_conditions.enum.map (fun p => p.2.1 ++ " = $" ++ toString (p.1 + 1)))
  (query, where_conditions.map Prod.snd)

/-- Embeds the statement assembly in `PostgresHandler.count_records`
(src/async_pg.py lines 256-267): equality placeholders over every condition
column, an unparenthesized `OR <col> IS NULL` for the first null-valued
column, and all condition values bound. -/
def countQuery (table_name : String) (where_conditions : List (String × Value)) :
    String × List Value :=
  let where_clause := pyJoin " AND "
    (where_conditions.enum.map (fun p => p.2.1 ++ " = $" ++ toString (p.1 + 1)))
  let query := "SELECT COUNT(*) FROM " ++ table_name
  let query := if where_clause = "" then query else query ++ " WHERE " ++ where_clause
  let null_col := (where_conditions.filter (fun kv => decide (kv.2 = Value.vnull))).map Prod.fst
  let query := match null_col with
    | [] => query
    | c :: _ => query ++ " OR " ++ c ++ " IS NULL"
  (query, where_conditions.map Prod.snd)

/-- Embeds the INSERT template of `PostgresHandler.insert_into_table_bulk`
(src/async_pg.py lines 122-125), including the literal layout of the
triple-quoted f-string. -/
def insertQuery (table_name : String) (columns : List String) : String :=
  "INSERT INTO " ++ table_name ++ " (" ++ pyJoin ", " columns
    ++ ")\n                            VALUES ("
    ++ pyJoin ", " ((List.range columns.length).map (fun i => "$" ++ toString (i + 1))) ++ ")"

/-- Embeds the result mapper `[dict(row) for row in result]`
(src/async_pg.py line 169); an asyncpg row already carries its column names,
so a row is an association list and `dict` is the identity on it. -/
def mapRows (result : List (List (String × Value))) : List (List (String × Value)) :=
  result.map (fun row => row)

/-- Embeds `PostgresHandler.create_tables` (src/async_pg.py lines 24-59):
lazily connects (pool := present), executes, catches any failure and returns
an error string; the pool is left open. -/
def create_tables (execute : String → List Value → Except String Unit) (pool : Bool)
    (table_info : TableInfo) : Bool × Except String String :=
  match execute (createTablesQuery table_info) [] with
  | .ok _ => (true, .ok "ok")
  | .error e => (true, .ok ("Error creating table: " ++ e))

/-- Embeds `PostgresHandler.mass_update` (src/async_pg.py lines 61-106): one
UPDATE per item (an item is its `where` dict paired with its `update` dict),
chunked by `sliceBatches`, per-item failures swallowed (logged); the pool is
left open.  The returned list is the per-item execution outcome trace. -/
def mass_update (execute : String → List Value → Except String Unit) (pool : Bool)
    (table_name : String) (data_list : List (List (String × Value) × List (String × Value)))
    (batch_size : Nat) : Bool × List (Except String Unit) :=
  (true,
   ((sliceBatches batch_size data_list).map (fun batch => batch.map (fun data =>
     let qv := updateQuery table_name data.1 data.2
     execute qv.1 qv.2))).flatten)

/-- Embeds `PostgresHandler.insert_into_table_bulk` (src/async_pg.py
lines 108-136): one `executemany` per chunk, any failure caught and returned
as an error string; the pool is left open. -/
def insert_into_table_bulk (executemany : String → List (List Value) → Except String Unit)
    (pool : Bool) (table_name : String) (records : List (List (String × Value)))
    (batch_size : Nat) : Bool × Except String String :=
  let columns := insertColumns records
  let query := insertQuery table_name columns
  match runExecMany executemany query
      ((sliceBatches batch_size records).map (fun batch => batch.map (recordTuple columns))) with
  | .ok _ => (true, .ok "ok")
  | .error e => (true, .ok ("Error adding records: " ++ e))

/-- Embeds `PostgresHandler.select_data` (src/async_pg.py lines 138-175):
builds the query, fetches, maps rows; a failure is re-raised, and the
`finally` block closes the pool on every exit path. -/
def select_data (fetch : String → List Value → Except String (List (List (String × Value))))
    (pool : Bool) (table_name : String) (find_data : List String)
    (where_conditions_list : List (List (String × Value))) (batch_size : Int) :
    Bool × Except String (List (List (String × Value))) :=
  let qv := build_select_query table_name find_data where_conditions_list batch_size
  match fetch qv.1 qv.2 with
  | .ok result => (false, .ok (mapRows result))
  | .error e => (false, .error e)

/-- Embeds `PostgresHandler.delete_data` (src/async_pg.py lines 203-227): any
failure is caught and returned as an error string; the pool is left open. -/
def delete_data (execute : String → List Value → Except String Unit) (pool : Bool)
    (table_name : String) (where_conditions : List (String × Value)) :
    Bool × Except String String :=
  let qv := deleteQuery table_name where_conditions
  match execute qv.1 qv.2 with
  | .ok _ => (true, .ok "ok")
  | .error e => (true, .ok ("Error deleting data: " ++ e))

/-- Embeds `PostgresHandler.delete_all_data_from_table` (src/async_pg.py
lines 229-246): any failure is caught and `"error"` returned; the pool is
left open. -/
def delete_all_data_from_table (execute : String → List Value → Except String Unit)
    (pool : Bool) (table_name : String) : Bool × Except String String :=
  match execute ("DELETE FROM " ++ table_name) [] with
  | .ok _ => (true, .ok "ok")
  | .error e => (true, .ok "error")

/-- Embeds `PostgresHandler.count_records` (src/async_pg.py lines 248-273):
validation raises `ValueError` before connecting; afterwards `fetchval` runs
and any failure is re-raised; no close on any path, so the pool stays open. -/
def count_records (fetchval : String → List Value → Except String Int) (pool : Bool)
    (table_name : String) (where_conditions : List (String × Value)) :
    Bool × Except String Int :=
  if table_name = "" then (pool, .error "Invalid parameters")
  else
    let qv := countQuery table_name where_conditions
    match fetchval qv.1 qv.2 with
    | .ok count => (true, .ok count)
    | .error e => (true, .error e)

end PostgresHandler

namespace SqliteHandler

/-- Embeds the per-Condition clause generator inside `build_select_query`
(src/async_sqlite.py lines 215-220): positional `?` placeholders, null-valued
columns rendered `IS NULL`. -/
def condClause (conditions : List (String × Value)) : String :=
  pyJoin " AND " (conditions.map (fun kv =>
    if kv.2 ≠ Value.vnull then kv.1 ++ " = ?" else kv.1 ++ " IS NULL"))

/-- Embeds the loop over `where_conditions_list` accumulating `where_clauses`
and `condition_values` (src/async_sqlite.py lines 213-222). -/
def compileConds : List (List (String × Value)) → List String × List Value → List String × List Value
  | [], acc => acc
  | conditions :: rest, acc =>
    if conditions = [] then compileConds rest acc
    else compileConds rest (acc.1 ++ [condClause conditions], acc.2 ++ nonNullValues conditions)

/-- Embeds `SqliteHandler.build_select_query` (src/async_sqlite.py lines 206-230). -/
def build_select_query (table_name : String) (find_data : List String)
    (where_conditions_list : List (List (String × Value))) (batch_size : Int) :
    String × List Value :=
  let query := "SELECT " ++ pyJoin ", " find_data ++ " FROM " ++ table_name
  if where_conditions_list = [] then (query, [])
  else
    let res := compileConds where_conditions_list ([], [])
    if res.1 = [] then (query, res.2)
    else
      let query := query ++ " WHERE " ++ pyJoin " OR " (res.1.map (fun clause => "(" ++ clause ++ ")"))
      let query := if batch_size ≠ 0 then query ++ " LIMIT " ++ toString batch_size else query
      (query, res.2)

/-- Embeds the per-item statement assembly in `SqliteHandler.mass_update`
(src/async_sqlite.py lines 93-114): `?` placeholders; the bound list is the
UPDATE values followed by the WHERE values. -/
def updateQuery (table_name : String) (where_dict update_dict : List (String × Value)) :
    String × List Value :=
  let where_clause := pyJoin " AND " (where_dict.map (fun kv => kv.1 ++ " = ?"))
  let update_clause := pyJoin ", " (update_dict.map (fun kv => kv.1 ++ " = ?"))
  ("UPDATE " ++ table_name ++ " SET " ++ update_clause ++ " WHERE " ++ where_clause,
   update_dict.map Prod.snd ++ where_dict.map Prod.snd)

/-- Embeds the statement assembly in `SqliteHandler.delete_data`
(src/async_sqlite.py lines 243-250); the bound list is all condition values,
nulls included. -/
def deleteQuery (table_name : String) (where_conditions : List (String × Value)) :
    String × List Value :=
  let query := "DELETE FROM " ++ table_name
  let query := if where_conditions = [] then query
    else query ++ " WHERE " ++ pyJoin " AND " (where_conditions.map (fun kv => kv.1 ++ " = ?"))
  (query, where_conditions.map Prod.snd)

/-- Embeds the statement assembly in `SqliteHandler.count_records`
(src/async_sqlite.py lines 288-299): equality placeholders over every
condition column, an unparenthesized `OR <col> IS NULL` for the first
null-valued column, and all condition values bound. -/
def countQuery (table_name : String) (where_conditions : List (String × Value)) :
    String × List Value :=
  let where_clause := pyJoin " AND " (where_conditions.map (fun kv => kv.1 ++ " = ?"))
  let query := "SELECT COUNT(*) FROM " ++ table_name
  let query := if where_clause = "" then query else query ++ " WHERE " ++ where_clause
  let null_col := (where_conditions.filter (fun kv => decide (kv.2 = Value.vnull))).map Prod.fst
  let query := match null_col with
    | [] => query
    | c :: _ => query ++ " OR " ++ c ++ " IS NULL"
  (query, where_conditions.map Prod.snd)

/-- Embeds the INSERT template of `SqliteHandler.insert_into_table_bulk`
(src/async_sqlite.py lines 144-146). -/
def insertQuery (table_name : String) (columns : List String) : String :=
  "INSERT INTO " ++ table_name ++ " (" ++ pyJoin ", " columns ++ ") VALUES ("
    ++ pyJoin ", " (columns.map (fun _ => "?")) ++ ")"

/-- Embeds the result mapper `[dict(zip(find_data, row)) for row in result]`
(src/async_sqlite.py line 195): each returned tuple is keyed positionally by
the literal requested column list; `zip` truncates at the shorter input. -/
def mapRows (find_data : List String) (result : List (List Value)) :
    List (List (String × Value)) :=
  result.map (fun row => find_data.zip row)

/-- Embeds `SqliteHandler.create_tables` (src/async_sqlite.py lines 24-64):
any failure is caught and returned as an error string; the `finally` block
closes the connection on every exit path. -/
def create_tables (execute : String → List Value → Except String Unit) (connection : Bool)
    (table_info : TableInfo) : Bool × Except String String :=
  match execute (createTablesQuery table_info) [] with
  | .ok _ => (false, .ok "ok")
  | .error e => (false, .ok ("Error creating table: " ++ e))

/-- Embeds `SqliteHandler.mass_update` (src/async_sqlite.py lines 66-127): one
UPDATE per item, chunked by `sliceBatches`, per-item failures swallowed; the
`finally` block closes the connection.  The returned list is the per-item
execution outcome trace. -/
def mass_update (execute : String → List Value → Except String Unit) (connection : Bool)
    (table_name : String) (data_list : List (List (String × Value) × List (String × Value)))
    (batch_size : Nat) : Bool × List (Except String Unit) :=
  (false,
   ((sliceBatches batch_size data_list).map (fun batch => batch.map (fun data =>
     let qv := updateQuery table_name data.1 data.2
     execute qv.1 qv.2))).flatten)

/-- Embeds `SqliteHandler.insert_into_table_bulk` (src/async_sqlite.py
lines 129-160): one `executemany` per chunk, any failure caught and returned
as an error string; the `finally` block closes the connection. -/
def insert_into_table_bulk (executemany : String → List (List Value) → Except String Unit)
    (connection : Bool) (table_name : String) (records : List (List (String × Value)))
    (batch_size : Nat) : Bool × Except String String :=
  let columns := insertColumns records
  let query := insertQuery table_name columns
  match runExecMany executemany query
      ((sliceBatches batch_size records).map (fun batch => batch.map (recordTuple columns))) with
  | .ok _ => (false, .ok "ok")
  | .error e => (false, .ok ("Error adding records: " ++ e))

/-- Embeds `SqliteHandler.select_data` (src/async_sqlite.py lines 162-204):
builds the query, fetches, maps rows via `zip` with `find_data`; a failure is
re-raised, and the `finally` block closes the connection on every exit path. -/
def select_data (fetch : String → List Value → Except String (List (List Value)))
    (connection : Bool) (table_name : String) (find_data : List String)
    (where_conditions_list : List (List (String × Value))) (batch_size : Int) :
    Bool × Except String (List (List (String × Value))) :=
  let qv := build_select_query table_name find_data where_conditions_list batch_size
  match fetch qv.1 qv.2 with
  | .ok result => (false, .ok (mapRows find_data result))
  | .error e => (false, .error e)

/-- Embeds `SqliteHandler.delete_data` (src/async_sqlite.py lines 232-258):
any failure is caught and returned as an error string; the `finally` block
closes the connection. -/
def delete_data (execute : String → List Value → Except String Unit) (connection : Bool)
    (table_name : String) (where_conditions : List (String × Value)) :
    Bool × Except String String :=
  let qv := deleteQuery table_name where_conditions
  match execute qv.1 qv.2 with
  | .ok _ => (false, .ok "ok")
  | .error e => (false, .ok ("Error deleting data: " ++ e))

/-- Embeds `SqliteHandler.delete_all_data_from_table` (src/async_sqlite.py
lines 260-278): it connects, catches failures and returns `"ok"`/`"error"`,
and — unlike every other operation of this handler — has no `finally` close,
so the connection is left open. -/
def delete_all_data_from_table (execute : String → List Value → Except String Unit)
    (connection : Bool) (table_name : String) : Bool × Except String String :=
  match execute ("DELETE FROM " ++ table_name) [] with
  | .ok _ => (true, .ok "ok")
  | .error e => (true, .ok "error")

/-- Embeds `SqliteHandler.count_records` (src/async_sqlite.py lines 280-307):
validation raises `ValueError` before connecting (state untouched); otherwise
the statement executes and then `.fetchval()` is looked up on the cursor —
an attribute the embedded driver does not provide — so the call raises; the
re-raise passes through the `finally` close.  The `.ok` branch after a
successful attribute lookup is unreachable. -/
def count_records (execute : String → List Value → Except String (List (List Value)))
    (connection : Bool) (table_name : String) (where_conditions : List (String × Value)) :
    Bool × Except String Int :=
  if table_name = "" then (connection, .error "Invalid parameters")
  else
    let qv := countQuery table_name where_conditions
    match execute qv.1 qv.2 with
    | .error e => (false, .error e)
    | .ok _ =>
      match cursorGetAttr "fetchval" with
      | .error e => (false, .error e)
      | .ok _ => (false, .ok 0)

end SqliteHandler

/-! Helper lemmas shared by the claim theorems below. -/

theorem pyJoin_ne_empty (sep : String) (l : List String) (hl : l ≠ [])
    (h : ∀ x ∈ l, 0 < x.length) : pyJoin sep l ≠ "" := by
  have hpos : 0 < (pyJoin sep l).length := by
    match l with
    | [x] => simpa [pyJoin] using h x (by simp)
    | x :: y :: rest =>
      have hx := h x (by simp)
      simp only [pyJoin, String.length_append]
      omega
  intro he
  rw [he] at hpos
  simp at hpos

theorem head?_filter_eq_find? (p : α → Bool) (l : List α) :
    (l.filter p).head? = l.find? p := by
  induction l with
  | nil => rfl
  | cons x xs ih =>
    by_cases hx : p x
    · simp [List.filter_cons, List.find?_cons, hx]
    · simp [List.filter_cons, List.find?_cons, hx, ih]

theorem pg_compileConds_snd (cs : List (List (String × Value))) :
    ∀ ws vs, (PostgresHandler.compileConds cs (ws, vs)).2
      = vs ++ (cs.flatten.map Prod.snd).filter (fun v => decide (v ≠ Value.vnull)) := by
  induction cs with
  | nil => intro ws vs; simp [PostgresHandler.compileConds]
  | cons c cs ih =>
    intro ws vs
    by_cases hc : c = []
    · subst hc
      simp [PostgresHandler.compileConds, ih]
    · simp only [PostgresHandler.compileConds, if_neg hc, ih, nonNullValues]
      simp [List.filter_append, List.append_assoc]

theorem sqlite_compileConds_snd (cs : List (List (String × Value))) :
    ∀ ws vs, (SqliteHandler.compileConds cs (ws, vs)).2
      = vs ++ (cs.flatten.map Prod.snd).filter (fun v => decide (v ≠ Value.vnull)) := by
  induction cs with
  | nil => intro ws vs; simp [SqliteHandler.compileConds]
  | cons c cs ih =>
    intro ws vs
    by_cases hc : c = []
    · subst hc
      simp [SqliteHandler.compileConds, ih]
    · simp only [SqliteHandler.compileConds, if_neg hc, ih, nonNullValues]
      simp [List.filter_append, List.append_assoc]

theorem pg_compileConds_fst_eq_nil (cs : List (List (String × Value))) :
    ∀ ws vs, ((PostgresHandler.compileConds cs (ws, vs)).1 = [] ↔ ws = [] ∧ ∀ c ∈ cs, c = []) := by
  induction cs with
  | nil => intro ws vs; simp [PostgresHandler.compileConds]
  | cons c cs ih =>
    intro ws vs
    by_cases hc : c = []
    · subst hc
      simp [PostgresHandler.compileConds, ih]
    · simp [PostgresHandler.compileConds, hc, ih]

theorem sqlite_compileConds_fst_eq_nil (cs : List (List (String × Value))) :
    ∀ ws vs, ((SqliteHandler.compileConds cs (ws, vs)).1 = [] ↔ ws = [] ∧ ∀ c ∈ cs, c = []) := by
  induction cs with
  | nil => intro ws vs; simp [SqliteHandler.compileConds]
  | cons c cs ih =>
    intro ws vs
    by_cases hc : c = []
    · subst hc
      simp [SqliteHandler.compileConds, ih]
    · simp [SqliteHandler.compileConds, hc, ih]

theorem pg_build_select_snd (t : String) (f : List String)
    (wcl : List (List (String × Value))) (b : Int) :
    (PostgresHandler.build_select_query t f wcl b).2
      = (PostgresHandler.compileConds wcl ([], [])).2 := by
  simp only [PostgresHandler.build_select_query]
  by_cases hw : wcl = []
  · subst hw; simp [PostgresHandler.compileConds]
  · simp only [if_neg hw]
    split
    · rfl
    · split <;> rfl

theorem sqlite_build_select_snd (t : String) (f : List String)
    (wcl : List (List (String × Value))) (b : Int) :
    (SqliteHandler.build_select_query t f wcl b).2
      = (SqliteHandler.compileConds wcl ([], [])).2 := by
  simp only [SqliteHandler.build_select_query]
  by_cases hw : wcl = []
  · subst hw; simp [SqliteHandler.compileConds]
  · simp only [if_neg hw]
    split
    · rfl
    · split <;> rfl

theorem sliceBatches_flatten (b : Nat) (l : List α) : (sliceBatches b l).flatten = l := by
  induction l using sliceBatches.induct b with
  | case1 => simp [sliceBatches]
  | case2 r rs ih =>
    simp only [sliceBatches, List.flatten_cons, ih]
    simp [List.take_append_drop]

theorem sliceBatches_length (b : Nat) (l : List α) :
    (sliceBatches (b + 1) l).length = (l.length + b) / (b + 1) := by
  induction l using sliceBatches.induct (b + 1) with
  | case1 =>
    simp only [sliceBatches, List.length_nil, List.length, Nat.zero_add]
    exact (Nat.div_eq_of_lt (Nat.lt_succ_self b)).symm
  | case2 r rs ih =>
    have hstep : (sliceBatches (b + 1) (r :: rs)).length
        = (sliceBatches (b + 1) (rs.drop (b + 1 - 1))).length + 1 := by
      simp [sliceBatches]
    rw [hstep, ih]
    simp only [List.length_drop, List.length_cons, Nat.add_sub_cancel]
    have hR : (rs.length + 1 + b) = rs.length + (b + 1) := by omega
    rw [hR, Nat.add_div_right _ (by omega : 0 < b + 1)]
    have hmain : (rs.length - b + b) / (b + 1) = rs.length / (b + 1) := by
      rcases le_or_lt b rs.length with hle | hlt
      · rw [Nat.sub_add_cancel hle]
      · have h0 : rs.length - b = 0 := Nat.sub_eq_zero_of_le (Nat.le_of_lt hlt)
        rw [h0, Nat.zero_add, Nat.div_eq_of_lt (Nat.lt_succ_self b),
          Nat.div_eq_of_lt (Nat.lt_succ_of_lt hlt)]
    rw [hmain]

/-! Claim theorems. -/

/-- C1 counterexample: `PostgresHandler.delete_data` compiles the Condition
`{name: None}` into `DELETE FROM users WHERE name = $1` with bound-value list
`[null]` — a null value IS bound and the column is NOT rendered `IS NULL`,
refuting the claim for the delete predicate. -/
theorem delete_query_binds_null_value :
    (PostgresHandler.deleteQuery "users" [("name", Value.vnull)]).2 = [Value.vnull]
    ∧ Value.vnull ∈ (PostgresHandler.deleteQuery "users" [("name", Value.vnull)]).2
    ∧ (PostgresHandler.deleteQuery "users" [("name", Value.vnull)]).1
        = "DELETE FROM users WHERE name = $1" := by
  decide

/-- C1 (amended): for the select predicate compiler of both backends the
ordered bound-value list is exactly the non-null condition values in column
iteration order and never contains a null; delete and count instead bind
every condition value, nulls included. -/
theorem select_binds_exactly_nonnull_values (t : String) (f : List String)
    (wcl : List (List (String × Value))) (b : Int) (wc : List (String × Value)) :
    (PostgresHandler.build_select_query t f wcl b).2
        = (wcl.flatten.map Prod.snd).filter (fun v => decide (v ≠ Value.vnull))
    ∧ Value.vnull ∉ (PostgresHandler.build_select_query t f wcl b).2
    ∧ (SqliteHandler.build_select_query t f wcl b).2
        = (wcl.flatten.map Prod.snd).filter (fun v => decide (v ≠ Value.vnull))
    ∧ Value.vnull ∉ (SqliteHandler.build_select_query t f wcl b).2
    ∧ (PostgresHandler.deleteQuery t wc).2 = wc.map Prod.snd
    ∧ (SqliteHandler.deleteQuery t wc).2 = wc.map Prod.snd
    ∧ (PostgresHandler.countQuery t wc).2 = wc.map Prod.snd
    ∧ (SqliteHandler.countQuery t wc).2 = wc.map Prod.snd := by
  have hpg : (PostgresHandler.build_select_query t f wcl b).2
      = (wcl.flatten.map Prod.snd).filter (fun v => decide (v ≠ Value.vnull)) := by
    rw [pg_build_select_snd, pg_compileConds_snd]
    simp
  have hsq : (SqliteHandler.build_select_query t f wcl b).2
      = (wcl.flatten.map Prod.snd).filter (fun v => decide (v ≠ Value.vnull)) := by
    rw [sqlite_build_select_snd, sqlite_compileConds_snd]
    simp
  refine ⟨hpg, ?_, hsq, ?_, rfl, rfl, rfl, rfl⟩
  · rw [hpg]
    simp [List.mem_filter]
  · rw [hsq]
    simp [List.mem_filter]

/-- C2: the numbered-placeholder bookkeeping of the pooled backend is broken
by null-valued columns — the running index `len(condition_values) + i + 1`
counts null columns too, so `[{a: None, b: 1}]` yields the single placeholder
`$2` (a gap, no `$1`) for a one-element bound list, and
`[{a: None, b: 1}, {c: 2}]` reuses `$2` for two different bound values; in
`mass_update` the SET placeholders (here `$2`) precede the WHERE placeholders
(`$1`) in the statement text, so indices are not increasing left to right. -/
theorem pg_numbered_placeholder_gap_and_reuse :
    PostgresHandler.build_select_query "t" ["*"] [[("a", Value.vnull), ("b", Value.vint 1)]] 0
      = ("SELECT * FROM t WHERE (a IS NULL AND b = $2)", [Value.vint 1])
    ∧ PostgresHandler.build_select_query "t" ["*"]
        [[("a", Value.vnull), ("b", Value.vint 1)], [("c", Value.vint 2)]] 0
      = ("SELECT * FROM t WHERE (a IS NULL AND b = $2) OR (c = $2)",
         [Value.vint 1, Value.vint 2])
    ∧ PostgresHandler.updateQuery "t" [("id", Value.vint 1)] [("name", Value.vstr "John")]
      = ("UPDATE t SET name = $2 WHERE id = $1", [Value.vint 1, Value.vstr "John"]) := by
  decide

/-- C3 counterexample: the pooled backend's `mass_update` executes the WHERE
values before the SET values — the bound list for
`{where: {us_id: 2}, update: {age: 30}}` is `[2, 30]`, not SET-then-WHERE
(`[30, 2]`) as the claim states for both backends. -/
theorem pg_update_where_values_bound_first :
    (PostgresHandler.updateQuery "users" [("us_id", Value.vint 2)] [("age", Value.vint 30)]).2
      = [Value.vint 2, Value.vint 30]
    ∧ (PostgresHandler.updateQuery "users" [("us_id", Value.vint 2)] [("age", Value.vint 30)]).2
      ≠ [Value.vint 30] ++ [Value.vint 2] := by
  decide

/-- C3 (amended): the embedded backend binds the `update` Record's values
first and the `where` Condition's values after them, while the pooled backend
binds the `where` values first (`$1..$w`) and the `update` values after
(`$(w+1)..`), so its executed bound list is WHERE values then SET values. -/
theorem update_bound_value_order (t : String) (w u : List (String × Value)) :
    (SqliteHandler.updateQuery t w u).2 = u.map Prod.snd ++ w.map Prod.snd
    ∧ (PostgresHandler.updateQuery t w u).2 = w.map Prod.snd ++ u.map Prod.snd :=
  ⟨rfl, rfl⟩

/-- C4: for every record list and batch size ≥ 1 (written `b + 1`), the batch
executor's chunks concatenate back to the original list in order, and the
number of chunks — hence of multi-row execution calls for insert — is
`ceil(len(records)/batchSize) = (len + batchSize - 1) / batchSize`. -/
theorem batch_partition_complete {α : Type} (l : List α) (b : Nat) :
    (sliceBatches (b + 1) l).flatten = l
    ∧ (sliceBatches (b + 1) l).length = (l.length + b) / (b + 1) :=
  ⟨sliceBatches_flatten _ _, sliceBatches_length _ _⟩

/-- C5 counterexample: `count_records` AND-joins equality placeholders over
ALL condition columns, null-valued ones included (here `name = $2` resp.
`name = $1` for `name: None`), not over the non-null columns only as the
claim states; the null value is also bound. -/
theorem count_equality_clause_includes_null_columns :
    PostgresHandler.countQuery "users" [("age", Value.vint 30), ("name", Value.vnull)]
      = ("SELECT COUNT(*) FROM users WHERE age = $1 AND name = $2 OR name IS NULL",
         [Value.vint 30, Value.vnull])
    ∧ PostgresHandler.countQuery "users" [("name", Value.vnull)]
      = ("SELECT COUNT(*) FROM users WHERE name = $1 OR name IS NULL", [Value.vnull]) := by
  decide

/-- C5 (amended): on both backends `count` builds `SELECT COUNT(*) FROM t`
with an AND-joined WHERE of equality placeholders over ALL condition columns
(binding every value, nulls included), then appends an unparenthesized
` OR <column> IS NULL` for the first null-valued column in iteration order,
if any exists. -/
theorem count_query_structure (t : String) (wc : List (String × Value)) :
    (PostgresHandler.countQuery t wc).1
        = "SELECT COUNT(*) FROM " ++ t
          ++ (if wc = [] then ""
              else " WHERE " ++ pyJoin " AND "
                (wc.enum.map (fun p => p.2.1 ++ " = $" ++ toString (p.1 + 1))))
          ++ (match wc.find? (fun kv => decide (kv.2 = Value.vnull)) with
              | none => ""
              | some kv => " OR " ++ kv.1 ++ " IS NULL")
    ∧ (PostgresHandler.countQuery t wc).2 = wc.map Prod.snd
    ∧ (SqliteHandler.countQuery t wc).1
        = "SELECT COUNT(*) FROM " ++ t
          ++ (if wc = [] then ""
              else " WHERE " ++ pyJoin " AND " (wc.map (fun kv => kv.1 ++ " = ?")))
          ++ (match wc.find? (fun kv => decide (kv.2 = Value.vnull)) with
              | none => ""
              | some kv => " OR " ++ kv.1 ++ " IS NULL")
    ∧ (SqliteHandler.countQuery t wc).2 = wc.map Prod.snd := by
  refine ⟨?_, rfl, ?_, rfl⟩
  · by_cases hw : wc = []
    · subst hw
      simp [PostgresHandler.countQuery, pyJoin]
    · have helem : ∀ x ∈ wc.enum.map (fun p => p.2.1 ++ " = $" ++ toString (p.1 + 1)),
          0 < x.length := by
        intro x hx
        obtain ⟨p, hp, rfl⟩ := List.mem_map.1 hx
        rw [String.length_append, String.length_append]
        have h4 : (" = $" : String).length = 4 := rfl
        omega
      have hnil : wc.enum.map (fun p => p.2.1 ++ " = $" ++ toString (p.1 + 1)) ≠ [] := by
        simp [hw]
      have hne := pyJoin_ne_empty " AND " _ hnil helem
      simp only [PostgresHandler.countQuery, if_neg hne, if_neg hw]
      cases hf : wc.find? (fun kv => decide (kv.2 = Value.vnull)) with
      | none =>
        have hfil : wc.filter (fun kv => decide (kv.2 = Value.vnull)) = [] := by
          rw [List.filter_eq_nil_iff]
          intro a ha
          exact (List.find?_eq_none.mp hf) a ha
        rw [hfil]
        simp [String.append_assoc]
      | some kv0 =>
        have h0 : (wc.filter (fun kv => decide (kv.2 = Value.vnull))).head? = some kv0 := by
          rw [head?_filter_eq_find?, hf]
        cases hfl : wc.filter (fun kv => decide (kv.2 = Value.vnull)) with
        | nil => rw [hfl] at h0; simp at h0
        | cons a tl =>
          rw [hfl] at h0
          simp at h0
          subst h0
          simp [String.append_assoc]
  · by_cases hw : wc = []
    · subst hw
      simp [SqliteHandler.countQuery, pyJoin]
    · have helem : ∀ x ∈ wc.map (fun kv => kv.1 ++ " = ?"), 0 < x.length := by
        intro x hx
        obtain ⟨p, hp, rfl⟩ := List.mem_map.1 hx
        rw [String.length_append]
        have h4 : (" = ?" : String).length = 4 := rfl
        omega
      have hnil : wc.map (fun kv => kv.1 ++ " = ?") ≠ [] := by
        simp [hw]
      have hne := pyJoin_ne_empty " AND " _ hnil helem
      simp only [SqliteHandler.countQuery, if_neg hne, if_neg hw]
      cases hf : wc.find? (fun kv => decide (kv.2 = Value.vnull)) with
      | none =>
        have hfil : wc.filter (fun kv => decide (kv.2 = Value.vnull)) = [] := by
          rw [List.filter_eq_nil_iff]
          intro a ha
          exact (List.find?_eq_none.mp hf) a ha
        rw [hfil]
        simp [String.append_assoc]
      | some kv0 =>
        have h0 : (wc.filter (fun kv => decide (kv.2 = Value.vnull))).head? = some kv0 := by
          rw [head?_filter_eq_find?, hf]
        cases hfl : wc.filter (fun kv => decide (kv.2 = Value.vnull)) with
        | nil => rw [hfl] at h0; simp at h0
        | cons a tl =>
          rw [hfl] at h0
          simp at h0
          subst h0
          simp [String.append_assoc]

/-- C6: on both backends the built select query carries a WHERE clause and a
`LIMIT <batch_size>` suffix exactly when the condition list contains at least
one non-empty Condition and the batch size is nonzero; with a predicate but
zero batch size only the WHERE clause is appended, and with an empty
ConditionSet (or only empty Conditions) the query is the bare
`SELECT <columns> FROM <table>` with neither WHERE nor LIMIT. -/
theorem select_limit_exactly_when_predicate_and_nonzero_batch (t : String)
    (f : List String) (wcl : List (List (String × Value))) (b : Int) :
    (PostgresHandler.build_select_query t f wcl b).1 =
      (if wcl.any (fun c => decide (c ≠ [])) then
        (if b ≠ 0 then
          "SELECT " ++ pyJoin ", " f ++ " FROM " ++ t ++ " WHERE "
            ++ pyJoin " OR " ((PostgresHandler.compileConds wcl ([], [])).1.map
                (fun clause => "(" ++ clause ++ ")"))
            ++ " LIMIT " ++ toString b
        else
          "SELECT " ++ pyJoin ", " f ++ " FROM " ++ t ++ " WHERE "
            ++ pyJoin " OR " ((PostgresHandler.compileConds wcl ([], [])).1.map
                (fun clause => "(" ++ clause ++ ")")))
      else "SELECT " ++ pyJoin ", " f ++ " FROM " ++ t)
    ∧ (SqliteHandler.build_select_query t f wcl b).1 =
      (if wcl.any (fun c => decide (c ≠ [])) then
        (if b ≠ 0 then
          "SELECT " ++ pyJoin ", " f ++ " FROM " ++ t ++ " WHERE "
            ++ pyJoin " OR " ((SqliteHandler.compileConds wcl ([], [])).1.map
                (fun clause => "(" ++ clause ++ ")"))
            ++ " LIMIT " ++ toString b
        else
          "SELECT " ++ pyJoin ", " f ++ " FROM " ++ t ++ " WHERE "
            ++ pyJoin " OR " ((SqliteHandler.compileConds wcl ([], [])).1.map
                (fun clause => "(" ++ clause ++ ")")))
      else "SELECT " ++ pyJoin ", " f ++ " FROM " ++ t) := by
  constructor
  · by_cases hw : wcl = []
    · subst hw
      simp [PostgresHandler.build_select_query]
    · by_cases hall : ∀ c ∈ wcl, c = []
      · have h1 : (PostgresHandler.compileConds wcl ([], [])).1 = [] :=
          (pg_compileConds_fst_eq_nil wcl [] []).2 ⟨rfl, hall⟩
        have hany : ¬ ((wcl.any fun c => decide (c ≠ [])) = true) := by
          rw [List.any_eq_true]
          rintro ⟨c, hc, hcne⟩
          exact absurd (hall c hc) (by simpa using hcne)
        rw [if_neg hany]
        simp [PostgresHandler.build_select_query, hw, h1]
      · have h1 : (PostgresHandler.compileConds wcl ([], [])).1 ≠ [] := by
          intro h
          exact hall ((pg_compileConds_fst_eq_nil wcl [] []).1 h).2
        have hany : (wcl.any fun c => decide (c ≠ [])) = true := by
          rw [List.any_eq_true]
          push_neg at hall
          obtain ⟨c, hc, hcne⟩ := hall
          exact ⟨c, hc, by simpa using hcne⟩
        rw [if_pos hany]
        simp only [PostgresHandler.build_select_query, if_neg hw, if_neg h1]
  · by_cases hw : wcl = []
    · subst hw
      simp [SqliteHandler.build_select_query]
    · by_cases hall : ∀ c ∈ wcl, c = []
      · have h1 : (SqliteHandler.compileConds wcl ([], [])).1 = [] :=
          (sqlite_compileConds_fst_eq_nil wcl [] []).2 ⟨rfl, hall⟩
        have hany : ¬ ((wcl.any fun c => decide (c ≠ [])) = true) := by
          rw [List.any_eq_true]
          rintro ⟨c, hc, hcne⟩
          exact absurd (hall c hc) (by simpa using hcne)
        rw [if_neg hany]
        simp [SqliteHandler.build_select_query, hw, h1]
      · have h1 : (SqliteHandler.compileConds wcl ([], [])).1 ≠ [] := by
          intro h
          exact hall ((sqlite_compileConds_fst_eq_nil wcl [] []).1 h).2
        have hany : (wcl.any fun c => decide (c ≠ [])) = true := by
          rw [List.any_eq_true]
          push_neg at hall
          obtain ⟨c, hc, hcne⟩ := hall
          exact ⟨c, hc, by simpa using hcne⟩
        rw [if_pos hany]
        simp only [SqliteHandler.build_select_query, if_neg hw, if_neg h1]

/-- C7: when the underlying statement execution raises, table creation, bulk
insert, delete and deleteAll catch it and return an error-result string
(`"Error …: <e>"`, or `"error"` for deleteAll), while select and count
re-raise it to the caller, on both backends (count first fails fast on an
empty table name). -/
theorem error_result_vs_reraise (e : String) (p c : Bool) (info : TableInfo)
    (t : String) (w : List (String × Value)) (f : List String)
    (wcl : List (List (String × Value))) (b : Int) (bn : Nat)
    (r : List (String × Value)) (rs : List (List (String × Value))) :
    (PostgresHandler.create_tables (fun _ _ => .error e) p info).2
        = .ok ("Error creating table: " ++ e)
    ∧ (PostgresHandler.insert_into_table_bulk (fun _ _ => .error e) p t (r :: rs) bn).2
        = .ok ("Error adding records: " ++ e)
    ∧ (PostgresHandler.delete_data (fun _ _ => .error e) p t w).2
        = .ok ("Error deleting data: " ++ e)
    ∧ (PostgresHandler.delete_all_data_from_table (fun _ _ => .error e) p t).2 = .ok "error"
    ∧ (PostgresHandler.select_data (fun _ _ => .error e) p t f wcl b).2 = .error e
    ∧ (PostgresHandler.count_records (fun _ _ => .error e) p t w).2
        = .error (if t = "" then "Invalid parameters" else e)
    ∧ (SqliteHandler.create_tables (fun _ _ => .error e) c info).2
        = .ok ("Error creating table: " ++ e)
    ∧ (SqliteHandler.insert_into_table_bulk (fun _ _ => .error e) c t (r :: rs) bn).2
        = .ok ("Error adding records: " ++ e)
    ∧ (SqliteHandler.delete_data (fun _ _ => .error e) c t w).2
        = .ok ("Error deleting data: " ++ e)
    ∧ (SqliteHandler.delete_all_data_from_table (fun _ _ => .error e) c t).2 = .ok "error"
    ∧ (SqliteHandler.select_data (fun _ _ => .error e) c t f wcl b).2 = .error e
    ∧ (SqliteHandler.count_records (fun _ _ => .error e) c t w).2
        = .error (if t = "" then "Invalid parameters" else e) := by
  refine ⟨rfl, ?_, rfl, rfl, rfl, ?_, rfl, ?_, rfl, rfl, rfl, ?_⟩
  · simp [PostgresHandler.insert_into_table_bulk, sliceBatches, runExecMany]
  · by_cases ht : t = "" <;> simp [PostgresHandler.count_records, ht]
  · simp [SqliteHandler.insert_into_table_bulk, sliceBatches, runExecMany]
  · by_cases ht : t = "" <;> simp [SqliteHandler.count_records, ht]

/-- C8 counterexample: on the embedded backend a `*` request does not key the
Records by the table's columns — the mapper zips the literal list `["*"]`
against each row, yielding one Record with the single key `*` holding only
the row's first value. -/
theorem star_select_keyed_by_literal_star :
    SqliteHandler.mapRows ["*"] [[Value.vint 1, Value.vstr "John", Value.vint 25]]
      = [[("*", Value.vint 1)]]
    ∧ (SqliteHandler.mapRows ["*"] [[Value.vint 1, Value.vstr "John", Value.vint 25]]).map
        (fun row => row.map Prod.fst) ≠ [["id", "name", "age"]] := by
  decide

/-- C8 (amended): both mappers return one Record per returned row, in the
engine's row order with no re-sorting; the pooled backend keys each Record by
the row's own column names, while the embedded backend keys each row
positionally by the literal requested column list (so `*` yields the single
key `*`). -/
theorem result_mapper_rowwise (f : List String) (rows : List (List Value))
    (prows : List (List (String × Value))) (i : Nat) :
    (SqliteHandler.mapRows f rows).length = rows.length
    ∧ (SqliteHandler.mapRows f rows)[i]? = (rows[i]?).map (fun row => f.zip row)
    ∧ (PostgresHandler.mapRows prows).length = prows.length
    ∧ (PostgresHandler.mapRows prows)[i]? = (prows[i]?).map (fun row => row) := by
  refine ⟨?_, ?_, ?_, ?_⟩ <;>
    simp [SqliteHandler.mapRows, PostgresHandler.mapRows, List.getElem?_map]

/-- C9 counterexample: after a successful pooled select the pool IS closed
(the claim says it is not), after a successful pooled count the pool is left
open (the claim says it is closed), and after the embedded deleteAll the
connection is left open (the claim says every embedded operation closes it). -/
theorem close_policy_counterexample :
    (PostgresHandler.select_data (fun _ _ => Except.ok []) false "users" ["*"] [] 1000).1 = false
    ∧ (PostgresHandler.count_records (fun _ _ => Except.ok 0) false "users" []).1 = true
    ∧ (SqliteHandler.delete_all_data_from_table (fun _ _ => Except.ok ()) false "users").1 = true :=
  ⟨rfl, rfl, rfl⟩

/-- C9 (amended): on the embedded backend every public operation closes the
connection on every exit path EXCEPT `delete_all_data_from_table`, which
leaves it open (count leaves the state untouched when validation fails); on
the pooled backend select closes the pool on every exit path while count
never closes it. -/
theorem connection_close_policy
    (ex : String → List Value → Except String Unit)
    (em : String → List (List Value) → Except String Unit)
    (fe : String → List Value → Except String (List (List Value)))
    (fp : String → List Value → Except String (List (List (String × Value))))
    (fv : String → List Value → Except String Int)
    (st : Bool) (info : TableInfo) (t : String) (f : List String)
    (wcl : List (List (String × Value))) (b : Int) (bn : Nat)
    (recs : List (List (String × Value)))
    (dl : List (List (String × Value) × List (String × Value)))
    (w : List (String × Value)) :
    (SqliteHandler.create_tables ex st info).1 = false
    ∧ (SqliteHandler.mass_update ex st t dl bn).1 = false
    ∧ (SqliteHandler.insert_into_table_bulk em st t recs bn).1 = false
    ∧ (SqliteHandler.select_data fe st t f wcl b).1 = false
    ∧ (SqliteHandler.delete_data ex st t w).1 = false
    ∧ (SqliteHandler.count_records fe st t w).1 = (if t = "" then st else false)
    ∧ (SqliteHandler.delete_all_data_from_table ex st t).1 = true
    ∧ (PostgresHandler.select_data fp st t f wcl b).1 = false
    ∧ (PostgresHandler.count_records fv st t w).1 = (if t = "" then st else true) := by
  refine ⟨?_, rfl, ?_, ?_, ?_, ?_, ?_, ?_, ?_⟩
  · simp only [SqliteHandler.create_tables]
    split <;> rfl
  · simp only [SqliteHandler.insert_into_table_bulk]
    split <;> rfl
  · simp only [SqliteHandler.select_data]
    split <;> rfl
  · simp only [SqliteHandler.delete_data]
    split <;> rfl
  · by_cases ht : t = ""
    · simp [SqliteHandler.count_records, ht]
    · simp only [SqliteHandler.count_records, if_neg ht]
      split
      · rfl
      · split <;> rfl
  · simp only [SqliteHandler.delete_all_data_from_table]
    split <;> rfl
  · simp only [PostgresHandler.select_data]
    split <;> rfl
  · by_cases ht : t = ""
    · simp [PostgresHandler.count_records, ht]
    · simp only [PostgresHandler.count_records, if_neg ht]
      split <;> rfl

/-- C10: for every input, the embedded backend's `count_records` raises and
never returns an integer — after validation it looks up `fetchval` on the
cursor, an attribute the embedded driver's interface does not provide — and
for inputs that pass validation the connection is still closed on exit (the
`finally` block); a failing validation raises before connecting and leaves
the state untouched. -/
theorem sqlite_count_always_raises
    (execute : String → List Value → Except String (List (List Value)))
    (st : Bool) (t : String) (wc : List (String × Value)) :
    isRaised (SqliteHandler.count_records execute st t wc).2 = true
    ∧ (SqliteHandler.count_records execute st t wc).1 = (if t = "" then st else false) := by
  by_cases ht : t = ""
  · simp [SqliteHandler.count_records, ht, isRaised]
  · constructor
    · simp only [SqliteHandler.count_records, if_neg ht]
      split
      · rfl
      · rfl
    · simp only [SqliteHandler.count_records, if_neg ht]
      split
      · rfl
      · rfl
